import Mathlib

/-!
Verification of the data-analysis assistant's core backend:
`back/analysis_engine.py` (code execution and result formatting),
`back/data_handler.py` (CSV loading, metadata, reset) and the
insights history of `front/dashboard.py`, together with the
constants of `config.py`.

Python values that the engine inspects are modelled by the inductive
`PyValue`; a pandas `DataFrame` is a `Table` (column names plus rows of
string cells).  The dynamic behaviour of Python's `exec` on the shared
`execution_context` dictionary is modelled by `execStmts`: an executed
snippet is a sequence of name bindings, prints and raises, applied in
order to the namespace, stopping at the first raise with the bindings
made so far retained (as CPython's `exec` retains them in the dict it
mutates).
-/

namespace DataAI

/-- A pandas DataFrame: column names and rows of string cells. -/
structure Table where
  columns : List String
  rows : List (List String)
deriving DecidableEq, Repr

/-- A Python runtime value, as far as the engine's `isinstance` dispatch
distinguishes values: Plotly figures, DataFrames, Series, the primitive
scalars `int`/`float`/`str`/`bool`, `list`/`dict` collections, `None`,
and anything else (carried as its `str()` rendering). -/
inductive PyValue where
  | vNone : PyValue
  | vInt (n : Int) : PyValue
  | vFloat (render : String) : PyValue
  | vBool (b : Bool) : PyValue
  | vStr (s : String) : PyValue
  | vList (xs : List PyValue) : PyValue
  | vDict (xs : List (String × PyValue)) : PyValue
  | vDataFrame (t : Table) : PyValue
  | vSeries (name : String) (vals : List String) : PyValue
  | vFigure (id : Nat) : PyValue
  | vOther (descr : String) : PyValue

/-- Python's `str()` as far as the `format_result` fallback branch needs
it (only `None` and foreign objects ever reach that branch). -/
def pyStr : PyValue → String
  | .vNone => "None"
  | .vInt n => toString n
  | .vFloat r => r
  | .vBool true => "True"
  | .vBool false => "False"
  | .vStr s => s
  | .vList _ => "[...]"
  | .vDict _ => "\x7bdict\x7d"
  | .vDataFrame _ => "DataFrame"
  | .vSeries _ _ => "Series"
  | .vFigure _ => "Figure"
  | .vOther s => s

/-- The `execution_context` dictionary: an association list from names
to values, first hit wins. -/
def PyDict := List (String × PyValue)

/-- Dictionary lookup (`ctx[name]` / `name in ctx`). -/
def nsLookup : PyDict → String → Option PyValue
  | [], _ => none
  | (k1, v1) :: rest, k => if k1 = k then some v1 else nsLookup rest k

/-- Dictionary write (`ctx[name] = v`): overwrite in place, else append. -/
def nsSet : PyDict → String → PyValue → PyDict
  | [], k, v => [(k, v)]
  | (k1, v1) :: rest, k, v =>
      if k1 = k then (k, v) :: rest else (k1, v1) :: nsSet rest k v

/-- One step of an executed snippet: bind a name to a value, print a
line to captured stdout, or raise an exception whose `str()` is `msg`. -/
inductive Stmt where
  | assign (name : String) (v : PyValue) : Stmt
  | printLn (s : String) : Stmt
  | raiseExc (msg : String) : Stmt

/-- The names a snippet's assignment statements target. -/
def assignedNames : List Stmt → List String
  | [] => []
  | .assign n _ :: rest => n :: assignedNames rest
  | .printLn _ :: rest => assignedNames rest
  | .raiseExc _ :: rest => assignedNames rest

/-- Python `exec(code, ctx)` with stdout captured: run the statements in
order over the shared dictionary; return the dictionary after execution,
the captured stdout text, and the message of the raised exception if one
was raised.  A raise stops execution; bindings made before it stay in
the dictionary, exactly as `exec` leaves them in the mutated dict. -/
def execStmts : List Stmt → PyDict → PyDict × String × Option String
  | [], ns => (ns, "", none)
  | .assign n v :: rest, ns => execStmts rest (nsSet ns n v)
  | .printLn s :: rest, ns =>
      let r := execStmts rest ns
      (r.1, s ++ "\n" ++ r.2.1, r.2.2)
  | .raiseExc m :: _, ns => (ns, "", some m)

/-- `traceback.format_exc()`: the full fault trace, which embeds the
exception's description. -/
def format_exc (msg : String) : String :=
  "Traceback (most recent call last):\n" ++ msg

/-- `AnalysisEngine`: the dataframe under analysis and the persistent
`execution_context` dictionary shared by all `execute_code` calls. -/
structure AnalysisEngine where
  df : Table
  execution_context : PyDict

/-- `AnalysisEngine.__init__`: the initial context binds the modules
`pd`, `go`, `px`, the dataframe `df` and the `DataFrame` constructor;
none of `result`, `fig`, `chart` start out bound. -/
def initEngine (df : Table) : AnalysisEngine :=
  { df := df
    execution_context :=
      [("pd", .vOther "module pandas"),
       ("go", .vOther "module plotly.graph_objects"),
       ("px", .vOther "module plotly.express"),
       ("df", .vDataFrame df),
       ("DataFrame", .vOther "type DataFrame")] }

/-- The result-extraction cascade of `execute_code`: `result` if bound,
else `fig`, else `chart`, else the initial `None`. -/
def lookupProduced (ns : PyDict) : PyValue :=
  match nsLookup ns "result" with
  | some v => v
  | none =>
    match nsLookup ns "fig" with
    | some v => v
    | none =>
      match nsLookup ns "chart" with
      | some v => v
      | none => PyValue.vNone

/-- `AnalysisEngine.execute_code`: run the snippet in the shared
context.  On success return `(result, captured stdout, no error)` with
`result` drawn from the `result`/`fig`/`chart` cascade; on an exception
return `(None, traceback text, str(e))` — the captured stdout is
discarded and the result stays the initial `None`.  The (possibly
partially) mutated dictionary becomes the new context either way. -/
def execute_code (eng : AnalysisEngine) (code : List Stmt) :
    AnalysisEngine × (PyValue × String × Option String) :=
  match execStmts code eng.execution_context with
  | (ns2, out, none) =>
      ({ eng with execution_context := ns2 }, (lookupProduced ns2, out, none))
  | (ns2, _, some m) =>
      ({ eng with execution_context := ns2 },
       (PyValue.vNone, format_exc m, some m))

/-- `AnalysisEngine.is_plotly_figure`. -/
def is_plotly_figure : PyValue → Bool
  | .vFigure _ => true
  | _ => false

/-- `AnalysisEngine.is_dataframe`. -/
def is_dataframe : PyValue → Bool
  | .vDataFrame _ => true
  | _ => false

/-- `AnalysisEngine.is_series`. -/
def is_series : PyValue → Bool
  | .vSeries _ _ => true
  | _ => false

/-- pandas `Series.to_frame()`: a one-column DataFrame whose single
column carries the series' name and values. -/
def series_to_frame (name : String) (vals : List String) : Table :=
  { columns := [name], rows := vals.map (fun c => [c]) }

/-- `isinstance(result, (int, float, str, bool))`. -/
def isPrimitiveScalar : PyValue → Bool
  | .vInt _ => true
  | .vFloat _ => true
  | .vStr _ => true
  | .vBool _ => true
  | _ => false

/-- `isinstance(result, (list, dict))`. -/
def isListOrDict : PyValue → Bool
  | .vList _ => true
  | .vDict _ => true
  | _ => false

/-- `AnalysisEngine.format_result`: the source's dispatch, returning the
`type` tag and the `data` payload of the formatted dictionary. -/
def format_result (result : PyValue) : String × PyValue :=
  if is_plotly_figure result then ("plotly_figure", result)
  else if is_dataframe result then ("dataframe", result)
  else if is_series result then
    match result with
    | .vSeries n vals => ("series", .vDataFrame (series_to_frame n vals))
    | _ => ("series", result)
  else if isPrimitiveScalar result then ("scalar", result)
  else if isListOrDict result then ("collection", result)
  else ("other", .vStr (pyStr result))

/-- The display kinds of the spec's artifact union
(chart, table, scalar, collection, free text). -/
inductive DisplayKind where
  | chart : DisplayKind
  | table : DisplayKind
  | scalar : DisplayKind
  | collection : DisplayKind
  | text : DisplayKind
deriving DecidableEq, Repr

/-- The spec's decision table on the produced value's runtime shape:
chart object → chart, tabular object → table, one-dimensional labeled
sequence → table (via conversion), primitive scalar → scalar (carrying
the exact value), ordered/keyed collection → collection, anything else
→ its string rendering as free text. -/
def formatSpec : PyValue → DisplayKind × PyValue
  | .vFigure i => (.chart, .vFigure i)
  | .vDataFrame t => (.table, .vDataFrame t)
  | .vSeries n vals => (.table, .vDataFrame (series_to_frame n vals))
  | .vInt n => (.scalar, .vInt n)
  | .vFloat r => (.scalar, .vFloat r)
  | .vStr s => (.scalar, .vStr s)
  | .vBool b => (.scalar, .vBool b)
  | .vList xs => (.collection, .vList xs)
  | .vDict xs => (.collection, .vDict xs)
  | .vNone => (.text, .vStr (pyStr .vNone))
  | .vOther s => (.text, .vStr (pyStr (.vOther s)))

/-- How the dashboard renders each `format_result` type tag, read off
`render_visualizations_tab`: `plotly_figure` goes to the chart widget,
`dataframe` and `series` to the table widget, `scalar` and `collection`
carry their value and everything else is written as text. -/
def tagToKind (tag : String) : DisplayKind :=
  if tag = "plotly_figure" then .chart
  else if tag = "dataframe" then .table
  else if tag = "series" then .table
  else if tag = "scalar" then .scalar
  else if tag = "collection" then .collection
  else .text

/-! ## Data handling: `back/data_handler.py` and `config.py` -/

/-- `Config.MAX_FILE_SIZE_MB` (default "100"). -/
def MAX_FILE_SIZE_MB : Nat := 100

/-- `Config.ALLOWED_FILE_EXTENSIONS`. -/
def ALLOWED_FILE_EXTENSIONS : List String := [".csv"]

/-- Python `str.lower` on one character (ASCII, which covers the
extensions compared here). -/
def lowerChar (c : Char) : Char :=
  if 'A' ≤ c ∧ c ≤ 'Z' then Char.ofNat (c.toNat + 32) else c

/-- Python `str.lower`. -/
def strLower (s : String) : String := ⟨s.data.map lowerChar⟩

/-- Python `str.endswith`. -/
def strEndsWith (s suffix : String) : Bool :=
  List.isSuffixOf suffix.data s.data

/-- `any(filename.lower().endswith(ext) for ext in ALLOWED_FILE_EXTENSIONS)`. -/
def extensionAllowed (filename : String) : Bool :=
  ALLOWED_FILE_EXTENSIONS.any (fun ext => strEndsWith (strLower filename) ext)

/-- `len(file_bytes) / (1024 * 1024) > MAX_FILE_SIZE_MB` for the exact
real-valued division of the source, expressed over byte counts. -/
def oversized (file_bytes : List Nat) : Bool :=
  decide (file_bytes.length > MAX_FILE_SIZE_MB * 1024 * 1024)

/-- `DataHandler`: the current table and the snapshot taken at load. -/
structure DataHandler where
  df : Option Table
  original_df : Option Table
deriving DecidableEq, Repr

/-- `DataHandler.__init__`. -/
def initHandler : DataHandler := { df := none, original_df := none }

/-- `DataHandler.load_from_bytes`, with `pd.read_csv` abstracted as the
`parseCSV` argument (`none` models a parse that raises).  Returns the
handler after the call together with `ok true` on success or the
`DataLoadError` message on a raise.  The source raises for an oversized
payload and for a disallowed extension before touching `self`, and a
parse fault occurs while evaluating `pd.read_csv` — before the
assignment to `self.df` — so every error path leaves the handler as it
was; on success `self.df` is set to the parsed table and
`self.original_df` to its copy. -/
def load_from_bytes (parseCSV : List Nat → Option Table) (h : DataHandler)
    (file_bytes : List Nat) (filename : String) :
    DataHandler × Except String Bool :=
  if oversized file_bytes then
    (h, .error "File size exceeds maximum")
  else if ¬ extensionAllowed filename then
    (h, .error "File type not allowed")
  else
    match parseCSV file_bytes with
    | none => (h, .error "Error loading file from bytes")
    | some t => ({ df := some t, original_df := some t }, .ok true)

/-- The metadata dictionary built by `DataHandler.get_info`; the
pandas-internal entries (`dtypes`, `null_counts`, `memory_usage`) are
not modelled because cells are abstract strings here. -/
structure Info where
  shape : Nat × Nat
  columns : List String
  sample : List (List String)
deriving DecidableEq, Repr

/-- `DataHandler.get_info`: the empty dictionary (here `none`) when no
data is loaded, else shape `(len(df), len(df.columns))`, the column
list, and the first five rows as the sample. -/
def get_info (h : DataHandler) : Option Info :=
  match h.df with
  | none => none
  | some t =>
      some { shape := (t.rows.length, t.columns.length)
             columns := t.columns
             sample := t.rows.take 5 }

/-- `DataHandler.reset_data`: `False` and no change when nothing was
loaded, else restore `df` from the copy of `original_df`. -/
def reset_data (h : DataHandler) : DataHandler × Bool :=
  match h.original_df with
  | none => (h, false)
  | some t => ({ h with df := some t }, true)

/-- A direct mutation of the current table (the app reassigns
`handler.df`); `original_df` is untouched. -/
def setDf (h : DataHandler) (t : Table) : DataHandler :=
  { h with df := some t }

/-- Any finite sequence of mutations of the current table. -/
def applyMutations (h : DataHandler) (ms : List Table) : DataHandler :=
  ms.foldl setDf h

/-! ## Insights history: `render_ai_insights_tab` of `front/dashboard.py` -/

/-- One user action on the AI-insights tab that touches the history:
a successful Ask-AI query, an auto-analysis that returned without an
`error` key (appending under the fixed query `"Auto Analysis"`), or an
auto-analysis whose result carried an `error` key (no append). -/
inductive InsightOp where
  | ask (query response : String) : InsightOp
  | autoOk (summary : String) : InsightOp
  | autoErr : InsightOp

/-- The effect of one action on `st.session_state.insights`:
`insights.append({'query': ..., 'response': ...})` or nothing. -/
def stepInsights (l : List (String × String)) : InsightOp → List (String × String)
  | .ask q r => l ++ [(q, r)]
  | .autoOk s => l ++ [("Auto Analysis", s)]
  | .autoErr => l

/-- The rendered history window:
`reversed(st.session_state.insights[-10:])` — the most recent ten
records, newest first. -/
def displayWindow (l : List (String × String)) : List (String × String) :=
  (l.drop (l.length - 10)).reverse

/-! ## Concrete fixtures used by witnesses -/

/-- A small concrete table. -/
def tinyTable : Table := { columns := ["x"], rows := [["1"], ["2"]] }

/-- A second concrete table, distinct from `tinyTable`. -/
def otherTable : Table := { columns := ["x", "y"], rows := [["3", "4"]] }

/-- A parse function that always succeeds with `tinyTable`. -/
def parseConst : List Nat → Option Table := fun _ => some tinyTable

/-! ## Helper lemmas on the namespace model -/

theorem nsLookup_nsSet_self (ns : PyDict) (k : String) (v : PyValue) :
    nsLookup (nsSet ns k v) k = some v := by
  induction ns with
  | nil => simp [nsSet, nsLookup]
  | cons p rest ih =>
    obtain ⟨k1, v1⟩ := p
    by_cases hk : k1 = k
    · simp [nsSet, hk, nsLookup]
    · simp [nsSet, hk, nsLookup, ih]

theorem nsLookup_nsSet_ne (ns : PyDict) (k k2 : String) (v : PyValue)
    (h : k ≠ k2) : nsLookup (nsSet ns k v) k2 = nsLookup ns k2 := by
  induction ns with
  | nil => simp [nsSet, nsLookup, h]
  | cons p rest ih =>
    obtain ⟨k1, v1⟩ := p
    by_cases hk : k1 = k
    · subst hk
      simp [nsSet, nsLookup, h]
    · simp [nsSet, hk, nsLookup, ih]

theorem execStmts_lookup_of_not_assigned (code : List Stmt) (ns : PyDict)
    (n : String) (hnot : n ∉ assignedNames code) :
    nsLookup (execStmts code ns).1 n = nsLookup ns n := by
  induction code generalizing ns with
  | nil => rfl
  | cons s rest ih =>
    cases s with
    | assign m v =>
      simp only [assignedNames, List.mem_cons, not_or] at hnot
      rw [execStmts, ih (nsSet ns m v) hnot.2,
        nsLookup_nsSet_ne ns m n v (fun hc => hnot.1 hc.symm)]
    | printLn s =>
      simp only [assignedNames] at hnot
      simpa [execStmts] using ih ns hnot
    | raiseExc m => rfl

/-! ## Engine claims -/

/-- C1 counterexample: the claim lists the conventional binding names as
`result`, `figure`, `chart`, but `execute_code` consults `result`,
`fig`, `chart`.  A snippet that assigns only `figure := 7` therefore
produces the absent value `None` rather than `7`, so under the claim's
name list the produced value would be `7` while the code yields `None`. -/
theorem figure_binding_not_consulted :
    (execute_code (initEngine tinyTable)
        [Stmt.assign "figure" (PyValue.vInt 7)]).2.1 = PyValue.vNone ∧
    PyValue.vNone ≠ PyValue.vInt 7 := by
  refine ⟨rfl, fun hc => ?_⟩
  cases hc

/-- C1 (amended): on a successful execution, the produced value is the
value bound to `result` in the post-execution namespace, else the one
bound to `fig`, else the one bound to `chart`, in that priority order;
when none of these three names is bound the produced value is `None`. -/
theorem produced_value_cascade (eng : AnalysisEngine) (code : List Stmt)
    (hok : (execStmts code eng.execution_context).2.2 = none) :
    (∀ v, nsLookup (execStmts code eng.execution_context).1 "result" = some v →
        (execute_code eng code).2.1 = v) ∧
    (nsLookup (execStmts code eng.execution_context).1 "result" = none →
      ∀ v, nsLookup (execStmts code eng.execution_context).1 "fig" = some v →
        (execute_code eng code).2.1 = v) ∧
    (nsLookup (execStmts code eng.execution_context).1 "result" = none →
      nsLookup (execStmts code eng.execution_context).1 "fig" = none →
      ∀ v, nsLookup (execStmts code eng.execution_context).1 "chart" = some v →
        (execute_code eng code).2.1 = v) ∧
    (nsLookup (execStmts code eng.execution_context).1 "result" = none →
      nsLookup (execStmts code eng.execution_context).1 "fig" = none →
      nsLookup (execStmts code eng.execution_context).1 "chart" = none →
      (execute_code eng code).2.1 = PyValue.vNone) := by
  rcases hE : execStmts code eng.execution_context with ⟨ns2, out, err⟩
  rw [hE] at hok
  subst hok
  simp only [execute_code, hE]
  refine ⟨?_, ?_, ?_, ?_⟩
  · intro v hv
    simp [lookupProduced, hv]
  · intro h0 v hv
    simp [lookupProduced, h0, hv]
  · intro h0 h1 v hv
    simp [lookupProduced, h0, h1, hv]
  · intro h0 h1 h2
    simp [lookupProduced, h0, h1, h2]

/-- C1 witness: with both `fig` and `result` assigned, the produced
value is the one bound to `result`. -/
theorem produced_value_cascade_witness :
    (execute_code (initEngine tinyTable)
        [Stmt.assign "fig" (PyValue.vInt 3),
         Stmt.assign "result" (PyValue.vInt 5)]).2.1 = PyValue.vInt 5 :=
  (produced_value_cascade (initEngine tinyTable)
      [Stmt.assign "fig" (PyValue.vInt 3),
       Stmt.assign "result" (PyValue.vInt 5)] rfl).1 (PyValue.vInt 5) rfl

/-- C2: `format_result` realises the spec's decision table — under the
dashboard's rendering of the type tags (`plotly_figure` ↦ chart,
`dataframe` and `series` ↦ table, `scalar`, `collection`, `other` ↦
their spec kinds), the tag and the data payload of `format_result`
agree with the spec's classification on every runtime shape, the
scalar case carrying the exact value and the series case the
one-column conversion. -/
theorem format_result_matches_spec (v : PyValue) :
    tagToKind (format_result v).1 = (formatSpec v).1 ∧
    (format_result v).2 = (formatSpec v).2 := by
  cases v <;> exact ⟨rfl, rfl⟩

/-- C3 counterexample: a snippet that raises an exception whose
description is empty yields the error message `""`, which is not a
non-empty error message. -/
theorem raised_error_message_can_be_empty :
    ¬ (∃ m, (execute_code (initEngine tinyTable)
          [Stmt.raiseExc ""]).2.2.2 = some m ∧ m ≠ "") := by
  rintro ⟨m, hm, hne⟩
  have hv : (execute_code (initEngine tinyTable)
      [Stmt.raiseExc ""]).2.2.2 = some "" := rfl
  rw [hv] at hm
  cases hm
  exact hne rfl

/-- C3 (amended): when the executed snippet raises an exception with
description `m`, `execute_code` returns no produced value (`None`), the
error element `m` itself (which may be empty when the exception carries
no text), and a textual output equal to the full fault trace, which is
non-empty and embeds the description. -/
theorem execute_code_failure (eng : AnalysisEngine) (code : List Stmt)
    (m : String)
    (hraise : (execStmts code eng.execution_context).2.2 = some m) :
    (execute_code eng code).2.1 = PyValue.vNone ∧
    (execute_code eng code).2.2.2 = some m ∧
    (execute_code eng code).2.2.1 = format_exc m ∧
    (execute_code eng code).2.2.1 ≠ "" ∧
    ∃ pre, (execute_code eng code).2.2.1 = pre ++ m := by
  rcases hE : execStmts code eng.execution_context with ⟨ns2, out, err⟩
  rw [hE] at hraise
  have herr : err = some m := hraise
  subst herr
  have hev : execute_code eng code =
      ({ eng with execution_context := ns2 },
       (PyValue.vNone, format_exc m, some m)) := by
    simp [execute_code, hE]
  rw [hev]
  refine ⟨rfl, rfl, rfl, ?_, ⟨"Traceback (most recent call last):\n", rfl⟩⟩
  intro hc
  have hc2 : format_exc m = "" := hc
  have hlen : (format_exc m).length = 0 := by rw [hc2]; rfl
  unfold format_exc at hlen
  rw [String.length_append] at hlen
  have h35 : ("Traceback (most recent call last):\n").length = 35 := rfl
  omega

/-- C3 witness: a snippet that prints and then raises `"boom"`. -/
theorem execute_code_failure_witness :
    (execute_code (initEngine tinyTable)
        [Stmt.printLn "a", Stmt.raiseExc "boom"]).2.1 = PyValue.vNone ∧
    (execute_code (initEngine tinyTable)
        [Stmt.printLn "a", Stmt.raiseExc "boom"]).2.2.2 = some "boom" ∧
    (execute_code (initEngine tinyTable)
        [Stmt.printLn "a", Stmt.raiseExc "boom"]).2.2.1 = format_exc "boom" ∧
    (execute_code (initEngine tinyTable)
        [Stmt.printLn "a", Stmt.raiseExc "boom"]).2.2.1 ≠ "" ∧
    ∃ pre, (execute_code (initEngine tinyTable)
        [Stmt.printLn "a", Stmt.raiseExc "boom"]).2.2.1 = pre ++ "boom" :=
  execute_code_failure (initEngine tinyTable)
    [Stmt.printLn "a", Stmt.raiseExc "boom"] "boom" rfl

/-- C4: a fault raised by the executed snippet is never propagated by
`execute_code`; the error element of the returned triple is exactly the
fault of the execution (`none` when none was raised), so every call
returns a triple and no fault escapes to the caller. -/
theorem execute_code_catches_faults (eng : AnalysisEngine) (code : List Stmt) :
    (execute_code eng code).2.2.2 = (execStmts code eng.execution_context).2.2 := by
  rcases hE : execStmts code eng.execution_context with ⟨ns2, out, err⟩
  cases err <;> simp [execute_code, hE]

/-- C9: the execution context is shared and persistent — a name bound
to `v` in the context stays bound to `v` across any later
`execute_code` call whose snippet never assigns that name; in
particular a later snippet that does not assign `result` still yields
an earlier `result` binding as its produced value on success. -/
theorem execution_context_persists (eng : AnalysisEngine) (code : List Stmt)
    (n : String) (v : PyValue)
    (hbound : nsLookup eng.execution_context n = some v)
    (hnot : n ∉ assignedNames code) :
    nsLookup ((execute_code eng code).1.execution_context) n = some v ∧
    (n = "result" → (execStmts code eng.execution_context).2.2 = none →
      (execute_code eng code).2.1 = v) := by
  have hpres := execStmts_lookup_of_not_assigned code eng.execution_context n hnot
  rcases hE : execStmts code eng.execution_context with ⟨ns2, out, err⟩
  rw [hE] at hpres
  constructor
  · cases err <;> simp [execute_code, hE] <;> rw [hpres] <;> exact hbound
  · intro hn hok
    have herr : err = none := hok
    subst herr
    subst hn
    have hr : nsLookup ns2 "result" = some v := hpres.trans hbound
    have hev : execute_code eng code =
        ({ eng with execution_context := ns2 },
         (lookupProduced ns2, out, none)) := by
      simp [execute_code, hE]
    rw [hev]
    show lookupProduced ns2 = v
    simp [lookupProduced, hr]

/-- C9 witness: after a call binding `result := 9`, a later snippet
that only prints still produces `9`. -/
theorem execution_context_persists_witness :
    nsLookup ((execute_code
        ((execute_code (initEngine tinyTable)
            [Stmt.assign "result" (PyValue.vInt 9)]).1)
        [Stmt.printLn "hi"]).1.execution_context) "result"
      = some (PyValue.vInt 9) ∧
    (execute_code
        ((execute_code (initEngine tinyTable)
            [Stmt.assign "result" (PyValue.vInt 9)]).1)
        [Stmt.printLn "hi"]).2.1 = PyValue.vInt 9 := by
  have h := execution_context_persists
    ((execute_code (initEngine tinyTable)
        [Stmt.assign "result" (PyValue.vInt 9)]).1)
    [Stmt.printLn "hi"] "result" (PyValue.vInt 9) rfl (by simp [assignedNames])
  exact ⟨h.1, h.2 rfl rfl⟩

/-! ## Data-handler claims -/

/-- The handler produced by a successful `load_from_bytes` of
`tinyTable`. -/
def loadedHandler : DataHandler :=
  { df := some tinyTable, original_df := some tinyTable }

theorem load_ok_shape (parseCSV : List Nat → Option Table) (h : DataHandler)
    (file_bytes : List Nat) (filename : String) (h1 : DataHandler) (b : Bool)
    (hload : load_from_bytes parseCSV h file_bytes filename = (h1, .ok b)) :
    ∃ t, parseCSV file_bytes = some t ∧
      h1 = { df := some t, original_df := some t } := by
  unfold load_from_bytes at hload
  by_cases ho : oversized file_bytes
  · simp [ho] at hload
  · by_cases hx : extensionAllowed filename
    · rcases hp : parseCSV file_bytes with _ | t
      · rw [if_neg (by simp [ho]), if_neg (by simp [hx]), hp] at hload
        simp at hload
      · rw [if_neg (by simp [ho]), if_neg (by simp [hx]), hp] at hload
        refine ⟨t, rfl, ?_⟩
        have := congrArg Prod.fst hload
        exact this.symm
    · simp [ho, hx] at hload

theorem applyMutations_original (ms : List Table) (h : DataHandler) :
    (applyMutations h ms).original_df = h.original_df := by
  induction ms generalizing h with
  | nil => rfl
  | cons t ms ih =>
    show (applyMutations (setDf h t) ms).original_df = h.original_df
    rw [ih (setDf h t)]
    rfl

/-- C5: an oversized payload or a disallowed extension makes
`load_from_bytes` raise `DataLoadError` before any table is
constructed: the call errors, leaves the handler untouched, and its
outcome is independent of the CSV parser — the parse is never
attempted. -/
theorem load_rejects_before_parse (parseCSV : List Nat → Option Table)
    (h : DataHandler) (file_bytes : List Nat) (filename : String)
    (hbad : oversized file_bytes = true ∨ extensionAllowed filename = false) :
    (∃ msg, (load_from_bytes parseCSV h file_bytes filename).2
        = .error msg) ∧
    (load_from_bytes parseCSV h file_bytes filename).1 = h ∧
    (∀ parse2, load_from_bytes parseCSV h file_bytes filename
        = load_from_bytes parse2 h file_bytes filename) := by
  rcases hbad with ho | hx
  · refine ⟨⟨"File size exceeds maximum", ?_⟩, ?_, fun parse2 => ?_⟩ <;>
      simp [load_from_bytes, ho]
  · by_cases ho : oversized file_bytes
    · refine ⟨⟨"File size exceeds maximum", ?_⟩, ?_, fun parse2 => ?_⟩ <;>
        simp [load_from_bytes, ho]
    · refine ⟨⟨"File type not allowed", ?_⟩, ?_, fun parse2 => ?_⟩ <;>
        simp [load_from_bytes, ho, hx]

/-- C5 witness: a one-byte payload named `data.txt` is rejected for its
extension, whatever the parser would have returned. -/
theorem load_rejects_before_parse_witness :
    (∃ msg, (load_from_bytes parseConst initHandler [48] "data.txt").2
        = .error msg) ∧
    (load_from_bytes parseConst initHandler [48] "data.txt").1
        = initHandler ∧
    (∀ parse2, load_from_bytes parseConst initHandler [48] "data.txt"
        = load_from_bytes parse2 initHandler [48] "data.txt") :=
  load_rejects_before_parse parseConst initHandler [48] "data.txt"
    (Or.inr (by decide))

/-- C6: after a successful load followed by any sequence of mutations
of the current table, `reset_data` answers `True` and restores the
current table to exactly the table held immediately after the load;
with no load it answers `False` and changes nothing. -/
theorem reset_restores_loaded (parseCSV : List Nat → Option Table)
    (h0 : DataHandler) (file_bytes : List Nat) (filename : String)
    (h1 : DataHandler)
    (hload : load_from_bytes parseCSV h0 file_bytes filename = (h1, .ok true))
    (ms : List Table) :
    (reset_data (applyMutations h1 ms)).2 = true ∧
    (reset_data (applyMutations h1 ms)).1.df = h1.df ∧
    (∀ h2 : DataHandler, h2.original_df = none → reset_data h2 = (h2, false)) := by
  obtain ⟨t, hp, hshape⟩ :=
    load_ok_shape parseCSV h0 file_bytes filename h1 true hload
  subst hshape
  have horig :
      (applyMutations { df := some t, original_df := some t } ms).original_df
        = some t := by
    rw [applyMutations_original]
  rcases hA : applyMutations { df := some t, original_df := some t } ms
    with ⟨dfA, origA⟩
  rw [hA] at horig
  have ho2 : origA = some t := horig
  subst ho2
  refine ⟨rfl, rfl, ?_⟩
  intro h2 h2o
  rcases h2 with ⟨df2, orig2⟩
  have : orig2 = none := h2o
  subst this
  rfl

/-- C6 witness: load `tinyTable`, mutate to `otherTable`, reset. -/
theorem reset_restores_loaded_witness :
    (reset_data (applyMutations loadedHandler [otherTable])).2 = true ∧
    (reset_data (applyMutations loadedHandler [otherTable])).1.df
        = loadedHandler.df ∧
    (∀ h2 : DataHandler, h2.original_df = none → reset_data h2 = (h2, false)) :=
  reset_restores_loaded parseConst initHandler [48] "ok.csv" loadedHandler
    rfl [otherTable]

/-- C7: after a successful load, `get_info` reports `shape` equal to
`(R, C)` for the loaded table of `R` rows and `C` columns, and a
`columns` list of length `C`; with no data loaded it returns the empty
dictionary. -/
theorem get_info_reports_shape (parseCSV : List Nat → Option Table)
    (h0 : DataHandler) (file_bytes : List Nat) (filename : String)
    (h1 : DataHandler) (b : Bool)
    (hload : load_from_bytes parseCSV h0 file_bytes filename = (h1, .ok b)) :
    (∃ t i, h1.df = some t ∧ get_info h1 = some i ∧
        i.shape = (t.rows.length, t.columns.length) ∧
        i.columns = t.columns ∧
        i.columns.length = t.columns.length) ∧
    (∀ h2 : DataHandler, h2.df = none → get_info h2 = none) := by
  obtain ⟨t, hp, hshape⟩ :=
    load_ok_shape parseCSV h0 file_bytes filename h1 b hload
  subst hshape
  refine ⟨⟨t, _, rfl, rfl, rfl, rfl, rfl⟩, ?_⟩
  intro h2 h2o
  rcases h2 with ⟨df2, orig2⟩
  have : df2 = none := h2o
  subst this
  rfl

/-- C7 witness: the loaded `tinyTable` has 2 rows and 1 column. -/
theorem get_info_reports_shape_witness :
    (∃ t i, loadedHandler.df = some t ∧ get_info loadedHandler = some i ∧
        i.shape = (t.rows.length, t.columns.length) ∧
        i.columns = t.columns ∧
        i.columns.length = t.columns.length) ∧
    (∀ h2 : DataHandler, h2.df = none → get_info h2 = none) :=
  get_info_reports_shape parseConst initHandler [48] "ok.csv" loadedHandler
    true rfl

/-- C10: a failed load is atomic — when a load has previously succeeded
and a later `load_from_bytes` call raises `DataLoadError`, both the
current table and the original snapshot are exactly what they were
before the failed call. -/
theorem failed_load_atomic (parse1 parse2 : List Nat → Option Table)
    (h0 h1 : DataHandler) (b1 b2 : List Nat) (n1 n2 : String) (msg : String)
    (_hprev : load_from_bytes parse1 h0 b1 n1 = (h1, .ok true))
    (hfail : (load_from_bytes parse2 h1 b2 n2).2 = .error msg) :
    (load_from_bytes parse2 h1 b2 n2).1 = h1 ∧
    (load_from_bytes parse2 h1 b2 n2).1.df = h1.df ∧
    (load_from_bytes parse2 h1 b2 n2).1.original_df = h1.original_df := by
  have key : (load_from_bytes parse2 h1 b2 n2).1 = h1 := by
    unfold load_from_bytes
    by_cases ho : oversized b2
    · simp [ho]
    · by_cases hx : extensionAllowed n2
      · rcases hp : parse2 b2 with _ | t
        · simp [ho, hx, hp]
        · exfalso
          unfold load_from_bytes at hfail
          rw [if_neg (by simp [ho]), if_neg (by simp [hx]), hp] at hfail
          simp at hfail
      · simp [ho, hx]
  exact ⟨key, by rw [key], by rw [key]⟩

/-- C10 witness: after loading `tinyTable`, a load of a `.txt` file
fails and leaves the handler intact. -/
theorem failed_load_atomic_witness :
    (load_from_bytes parseConst loadedHandler [49] "bad.txt").1
        = loadedHandler ∧
    (load_from_bytes parseConst loadedHandler [49] "bad.txt").1.df
        = loadedHandler.df ∧
    (load_from_bytes parseConst loadedHandler [49] "bad.txt").1.original_df
        = loadedHandler.original_df :=
  failed_load_atomic parseConst parseConst initHandler loadedHandler
    [48] [49] "ok.csv" "bad.txt" "File type not allowed" rfl rfl

/-! ## Insights-history claim -/

theorem stepInsights_eq_append (l : List (String × String)) (op : InsightOp) :
    ∃ s, stepInsights l op = l ++ s ∧ s.length ≤ 1 := by
  cases op with
  | ask q r => exact ⟨[(q, r)], rfl, by simp⟩
  | autoOk s => exact ⟨[("Auto Analysis", s)], rfl, by simp⟩
  | autoErr => exact ⟨[], by simp [stepInsights], by simp⟩

theorem foldl_stepInsights_append (ops : List InsightOp)
    (l : List (String × String)) :
    ∃ s, List.foldl stepInsights l ops = l ++ s := by
  induction ops generalizing l with
  | nil => exact ⟨[], by simp⟩
  | cons op ops ih =>
    obtain ⟨s0, hs0, _⟩ := stepInsights_eq_append l op
    obtain ⟨s1, hs1⟩ := ih (l ++ s0)
    exact ⟨s0 ++ s1, by rw [List.foldl_cons, hs0, hs1, List.append_assoc]⟩

/-- C8: the insights history is append-only and order-preserving —
any sequence of tab actions extends the list at its end (each action
appending at most one record and deleting or reordering nothing), and
the rendered window holds at most the ten most recent records, is a
final segment of the history read newest first, and starts with the
record just appended. -/
theorem insights_append_only (l : List (String × String))
    (ops : List InsightOp) (q r : String) :
    (∃ s, List.foldl stepInsights l ops = l ++ s) ∧
    (∀ op, ∃ s, stepInsights l op = l ++ s ∧ s.length ≤ 1) ∧
    (displayWindow l).length ≤ 10 ∧
    (displayWindow l).reverse <:+ l ∧
    (displayWindow (stepInsights l (.ask q r))).head? = some (q, r) := by
  refine ⟨foldl_stepInsights_append ops l, fun op => stepInsights_eq_append l op,
    ?_, ?_, ?_⟩
  · simp only [displayWindow, List.length_reverse, List.length_drop]
    omega
  · rw [displayWindow, List.reverse_reverse]
    exact List.drop_suffix _ l
  · show (displayWindow (l ++ [(q, r)])).head? = some (q, r)
    rw [displayWindow, List.head?_reverse]
    have hn : (l ++ [(q, r)]).length - 10 ≤ l.length := by
      simp [List.length_append]
    rw [List.drop_append_of_le_length hn, List.getLast?_concat]

end DataAI
